import Mathlib

/-!
Verification of the nina_mqtt_bridge orchestration engine.

This file shallowly embeds the Python sources of the bridge
(`device_model.py`, `discovery.py`, `config.py`, `bridge.py`,
`scheduler.py`, `nina_client.py`) into Lean and proves the frozen claims
about them.

Modelling conventions:
* JSON-derived Python values are the inductive `JValue`; Python `dict`s
  are insertion-ordered association lists (`dset` overwrites in place,
  `dget` looks up the first hit), matching CPython dict semantics for
  the unique-key dictionaries the code builds.
* A Python function that can raise is embedded as `Except PyErr _`;
  `PyErr` names the exception classes that actually occur.
* `json.dumps` is modelled abstractly by the `Payload.json` constructor,
  which keeps the serialized object's structure; serialization text is
  never inspected by the code under verification.
* Threads are not modelled; the publisher loop and the scheduler tick are
  embedded as the pure state transformations their loop bodies perform,
  with the clock (`time.monotonic()`) passed in as explicit samples.
-/

/-- JSON-like runtime values flowing through the bridge (Python objects
obtained from `json.loads` / `response.json()`). Numbers are rationals:
the code only moves them around, never computes with them. -/
inductive JValue where
  | null : JValue
  | bool (b : Bool) : JValue
  | num (q : Rat) : JValue
  | str (s : String) : JValue
  | arr (xs : List JValue) : JValue
  | obj (fields : List (String × JValue)) : JValue

/-- Python exceptions raised by the embedded code. `valueError` and
`requestError` carry `str(exc)`. -/
inductive PyErr where
  | attributeError : PyErr
  | typeError : PyErr
  | valueError (msg : String) : PyErr
  | requestError (msg : String) : PyErr

/-- `str(exc)` for the exceptions above. -/
def pyErrStr : PyErr → String
  | .attributeError => "AttributeError"
  | .typeError => "TypeError"
  | .valueError m => m
  | .requestError m => m

/-- Python dict lookup (`d.get(k)` / `k in d`): first entry with the key. -/
def dget (d : List (String × JValue)) (k : String) : Option JValue :=
  match d with
  | [] => none
  | (k0, v) :: rest => if k0 == k then some v else dget rest k

/-- Python dict assignment `d[k] = v`: overwrite in place, else append. -/
def dset (d : List (String × JValue)) (k : String) (v : JValue) :
    List (String × JValue) :=
  match d with
  | [] => [(k, v)]
  | (k0, v0) :: rest =>
      if k0 == k then (k0, v) :: rest else (k0, v0) :: dset rest k v

/-- Python truthiness of a JSON-derived value. -/
def truthy : JValue → Bool
  | .null => false
  | .bool b => b
  | .num q => q != 0
  | .str s => !s.isEmpty
  | .arr xs => !xs.isEmpty
  | .obj fs => !fs.isEmpty

/-- Is the value Python `None`? (`value is None` checks in the bridge). -/
def isNull : JValue → Bool
  | .null => true
  | _ => false

/-- Iterating a Python value (`enumerate(x)` / `for ... in x`): lists give
their elements, strings their characters, dicts their keys; anything else
raises `TypeError`. -/
def pyIter : JValue → Except PyErr (List JValue)
  | .arr xs => .ok xs
  | .str s => .ok (s.data.map (fun c => .str (String.singleton c)))
  | .obj fs => .ok (fs.map (fun p => .str p.1))
  | _ => .error .typeError

/-- `str.title()` from Python: letters after a non-letter are upper-cased,
letters after a letter lower-cased (ASCII suffices for the keys in play). -/
def pyTitleAux : List Char → Bool → List Char
  | [], _ => []
  | c :: rest, prevAlpha =>
      (if c.isAlpha then (if prevAlpha then c.toLower else c.toUpper) else c)
        :: pyTitleAux rest c.isAlpha

/-- `s.title()`. -/
def pyTitle (s : String) : String :=
  ⟨pyTitleAux s.data false⟩

/-- Decimal digits of `n` padded to width `w` (for `str(float)` below). -/
def padDigits (n : Nat) (w : Nat) : String :=
  let s := toString n
  ⟨List.replicate (w - s.length) '0'⟩ ++ s

/-- Least `k ≤ fuel` with `den ∣ 10^k`, for printing finite decimals. -/
def decExponent (den : Nat) : Nat → Nat → Nat
  | 0, acc => acc
  | fuel + 1, acc =>
      if 10 ^ acc % den == 0 then acc else decExponent den fuel (acc + 1)

/-- `str()` of a Python float holding the rational `q`: integral floats
print with a trailing `.0`, finite decimals print exactly. (Floats only
pass through the bridge; no claim inspects this text.) -/
def formatRat (q : Rat) : String :=
  if q.den == 1 then toString q.num ++ ".0"
  else
    let k := decExponent q.den 40 1
    let scaled := q.num.natAbs * 10 ^ k / q.den
    let sign := if q.num < 0 then "-" else ""
    sign ++ toString (scaled / 10 ^ k) ++ "." ++ padDigits (scaled % 10 ^ k) k

mutual

/-- Python `str()`/`repr()` of a JSON-derived value (only scalars ever
reach `str()` in the bridge; containers are included for totality). -/
def pyStr : JValue → String
  | .null => "None"
  | .bool b => if b then "True" else "False"
  | .num q => formatRat q
  | .str s => s
  | .arr xs => "[" ++ pyStrList xs ++ "]"
  | .obj fs => "\x7b" ++ pyStrFields fs ++ "\x7d"

/-- Comma-joined reprs of list elements. -/
def pyStrList : List JValue → String
  | [] => ""
  | [x] => pyStr x
  | x :: rest => pyStr x ++ ", " ++ pyStrList rest

/-- Comma-joined reprs of dict entries. -/
def pyStrFields : List (String × JValue) → String
  | [] => ""
  | [(k, v)] => k ++ ": " ++ pyStr v
  | (k, v) :: rest => k ++ ": " ++ pyStr v ++ ", " ++ pyStrFields rest

end

/-- `str.replace(old, new)` over characters (all non-overlapping
occurrences, left to right); the fuel is the string length, enough for a
non-empty pattern. Implemented on `List Char` so that it computes by
kernel reduction (`String.replace` does not). -/
def replaceChars : Nat → List Char → List Char → List Char → List Char
  | 0, s, _, _ => s
  | fuel + 1, s, pat, rep =>
      match s with
      | [] => []
      | c :: rest =>
          if pat.isPrefixOf s then rep ++ replaceChars fuel (s.drop pat.length) pat rep
          else c :: replaceChars fuel rest pat rep

/-- `s.replace(pat, rep)` for a non-empty pattern (the topic templates'
placeholders; Python's empty-pattern behavior is never exercised). -/
def strReplace (s pat rep : String) : String :=
  if pat.isEmpty then s
  else ⟨replaceChars s.data.length s.data pat.data rep.data⟩

/-- `s.split(sep)` over characters, Python semantics for a non-empty
separator (adjacent separators yield empty fields; `"".split(sep)` is
`[""]`). -/
def splitChars : Nat → List Char → List Char → List Char → List (List Char)
  | 0, s, _, acc => [acc.reverse ++ s]
  | fuel + 1, s, sep, acc =>
      match s with
      | [] => [acc.reverse]
      | c :: rest =>
          if sep.isPrefixOf s then
            acc.reverse :: splitChars fuel (s.drop sep.length) sep []
          else splitChars fuel rest sep (c :: acc)

/-- `s.split(sep)` for a non-empty separator. -/
def strSplitOn (s sep : String) : List String :=
  if sep.isEmpty then [s]
  else (splitChars s.data.length s.data sep.data []).map (fun l => ⟨l⟩)

/-- `s.rstrip(c)`: drop trailing occurrences of one character. -/
def pyRstrip (s : String) (c : Char) : String :=
  ⟨(s.data.reverse.dropWhile (fun d => d == c)).reverse⟩

/-- `device_model._normalize`: lower-case, then drop non-alphanumerics
(per-character, as Python's `str.lower` does for the ASCII keys in play). -/
def _normalize (key : String) : String :=
  ⟨(key.data.map Char.toLower).filter Char.isAlphanum⟩

/-- `device_model.SensorDef`: static metadata for one named value. -/
structure SensorDef where
  name : Option String := none
  unit : Option String := none
  icon : Option String := none
  device_class : Option String := none
  state_class : Option String := none
  source : Option (List String) := none
  platform : String := "sensor"
def DEVICE_SENSORS : List (String × List (String × SensorDef)) := [
  ("application", [
    ("nina_version", { name := some "NINA Version", icon := some "mdi:alpha-n-box" }),
    ("api_version", { name := some "API Version", icon := some "mdi:api" }),
    ("application_start", { name := some "Application Start", device_class := some "timestamp", icon := some "mdi:clock-start" })]),
  ("camera", [
    ("target_temp", { name := some "Target Temperature", unit := some "°C", device_class := some "temperature", state_class := some "measurement", source := some ["TargetTemp"], icon := some "mdi:thermometer" }),
    ("temperature", { name := some "Temperature", unit := some "°C", device_class := some "temperature", state_class := some "measurement", icon := some "mdi:thermometer" }),
    ("gain", { name := some "Gain", state_class := some "measurement", icon := some "mdi:signal" }),
    ("binx", { name := some "Bin X", unit := some "px", icon := some "mdi:grid" }),
    ("biny", { name := some "Bin Y", unit := some "px", icon := some "mdi:grid" }),
    ("bitdepth", { name := some "Bit Depth", unit := some "bit", icon := some "mdi:binary" }),
    ("offset", { name := some "Offset", icon := some "mdi:arrow-collapse-horizontal" }),
    ("cooler_on", { name := some "Cooler On", icon := some "mdi:snowflake", platform := "binary_sensor" }),
    ("cooler_power", { name := some "Cooler Power", unit := some "%", state_class := some "measurement", icon := some "mdi:gauge" }),
    ("dewheater_on", { name := some "Dew Heater On", icon := some "mdi:radiator", platform := "binary_sensor" }),
    ("is_exposing", { name := some "Is Exposing", icon := some "mdi:camera-timer", platform := "binary_sensor" }),
    ("name", { name := some "Camera Name", icon := some "mdi:camera" }),
    ("display_name", { name := some "Camera Display Name", icon := some "mdi:label" }),
    ("connected", { name := some "Camera Connected", icon := some "mdi:lan-connect", device_class := some "connectivity", platform := "binary_sensor" })]),
  ("dome", [
    ("shutter_status", { name := some "Shutter Status", icon := some "mdi:garage-open-variant" }),
    ("at_park", { name := some "At Park", icon := some "mdi:parking", platform := "binary_sensor" }),
    ("at_home", { name := some "At Home", icon := some "mdi:home", platform := "binary_sensor" }),
    ("driver_following", { name := some "Driver Following", icon := some "mdi:link-variant", platform := "binary_sensor" }),
    ("slewing", { name := some "Slewing", icon := some "mdi:rotate-3d-variant", platform := "binary_sensor" }),
    ("azimuth", { name := some "Azimuth", unit := some "°", state_class := some "measurement", icon := some "mdi:compass-outline" }),
    ("connected", { name := some "Dome Connected", icon := some "mdi:lan-connect", device_class := some "connectivity", platform := "binary_sensor" }),
    ("name", { name := some "Dome Name", icon := some "mdi:home-circle" }),
    ("displayname", { name := some "Dome Display Name", icon := some "mdi:label" }),
    ("is_following", { name := some "Is Following", icon := some "mdi:orbit-variant", platform := "binary_sensor" }),
    ("is_synchronized", { name := some "Is Synchronized", icon := some "mdi:sync", platform := "binary_sensor" })]),
  ("filterwheel", [
    ("connected", { name := some "Filter Wheel Connected", icon := some "mdi:lan-connect", device_class := some "connectivity", platform := "binary_sensor" }),
    ("name", { name := some "Filter Wheel Name", icon := some "mdi:filter-variant" }),
    ("displayname", { name := some "Filter Wheel Display Name", icon := some "mdi:label" }),
    ("description", { name := some "Filter Wheel Description", icon := some "mdi:text-box-outline" }),
    ("is_moving", { name := some "Filter Wheel Moving", icon := some "mdi:rotate-3d-variant", platform := "binary_sensor" }),
    ("selected_filter_name", { name := some "Selected Filter", icon := some "mdi:filter" }),
    ("selected_filter_id", { name := some "Selected Filter Id", state_class := some "measurement", icon := some "mdi:filter" })]),
  ("flatdevice", [
    ("cover_state", { name := some "Cover State", icon := some "mdi:window-shutter" }),
    ("light_on", { name := some "Light On", icon := some "mdi:lightbulb-on-outline", platform := "binary_sensor" }),
    ("brightness", { name := some "Brightness", unit := some "%", state_class := some "measurement", icon := some "mdi:brightness-6" }),
    ("connected", { name := some "Flat Panel Connected", icon := some "mdi:lan-connect", device_class := some "connectivity", platform := "binary_sensor" }),
    ("name", { name := some "Flat Panel Name", icon := some "mdi:label" }),
    ("displayname", { name := some "Flat Panel Display Name", icon := some "mdi:label-outline" })]),
  ("focuser", [
    ("position", { name := some "Position", unit := some "step", state_class := some "measurement", icon := some "mdi:arrow-expand-vertical" }),
    ("temperature", { name := some "Temperature", unit := some "°C", device_class := some "temperature", state_class := some "measurement", icon := some "mdi:thermometer" }),
    ("is_moving", { name := some "Is Moving", icon := some "mdi:swap-vertical", platform := "binary_sensor" }),
    ("is_settling", { name := some "Is Settling", icon := some "mdi:progress-clock", platform := "binary_sensor" }),
    ("temp_comp", { name := some "Temperature Compensation", icon := some "mdi:thermometer-auto", platform := "binary_sensor" }),
    ("connected", { name := some "Focuser Connected", icon := some "mdi:lan-connect", device_class := some "connectivity", platform := "binary_sensor" }),
    ("name", { name := some "Focuser Name", icon := some "mdi:label" }),
    ("displayname", { name := some "Focuser Display Name", icon := some "mdi:label-outline" })]),
  ("guider", [
    ("connected", { name := some "Guider Connected", icon := some "mdi:lan-connect", device_class := some "connectivity", platform := "binary_sensor" }),
    ("name", { name := some "Guider Name", icon := some "mdi:telescope" }),
    ("displayname", { name := some "Guider Display Name", icon := some "mdi:label" }),
    ("rmserror_ra_pixels", { name := some "RMS Error RA (px)", unit := some "px", state_class := some "measurement", icon := some "mdi:chart-line" }),
    ("rmserror_ra_arcsec", { name := some "RMS Error RA (arcsec)", unit := some "arcsec", state_class := some "measurement", icon := some "mdi:chart-line" }),
    ("rmserror_dec_pixels", { name := some "RMS Error Dec (px)", unit := some "px", state_class := some "measurement", icon := some "mdi:chart-line" }),
    ("rmserror_dec_arcsec", { name := some "RMS Error Dec (arcsec)", unit := some "arcsec", state_class := some "measurement", icon := some "mdi:chart-line" }),
    ("rmserror_total_pixels", { name := some "RMS Error Total (px)", unit := some "px", state_class := some "measurement", icon := some "mdi:chart-line" }),
    ("rmserror_total_arcsec", { name := some "RMS Error Total (arcsec)", unit := some "arcsec", state_class := some "measurement", icon := some "mdi:chart-line" }),
    ("rmserror_peak_ra_pixels", { name := some "Peak RA Error (px)", unit := some "px", state_class := some "measurement", icon := some "mdi:chart-line" }),
    ("rmserror_peak_ra_arcsec", { name := some "Peak RA Error (arcsec)", unit := some "arcsec", state_class := some "measurement", icon := some "mdi:chart-line" }),
    ("rmserror_peak_dec_pixels", { name := some "Peak Dec Error (px)", unit := some "px", state_class := some "measurement", icon := some "mdi:chart-line" }),
    ("rmserror_peak_dec_arcsec", { name := some "Peak Dec Error (arcsec)", unit := some "arcsec", state_class := some "measurement", icon := some "mdi:chart-line" }),
    ("state", { name := some "Guider State", icon := some "mdi:play-circle" })]),
  ("mount", [
    ("tracking_mode", { name := some "Tracking Mode", icon := some "mdi:orbit-variant" }),
    ("sidereal_time", { name := some "Sidereal Time", unit := some "h", state_class := some "measurement", icon := some "mdi:clock-outline" }),
    ("right_ascension", { name := some "Right Ascension", unit := some "h", state_class := some "measurement", icon := some "mdi:alpha-r-circle" }),
    ("declination", { name := some "Declination", unit := some "°", state_class := some "measurement", icon := some "mdi:alpha-d-circle" }),
    ("site_latitude", { name := some "Site Latitude", unit := some "°", state_class := some "measurement", icon := some "mdi:earth" }),
    ("site_longitude", { name := some "Site Longitude", unit := some "°", state_class := some "measurement", icon := some "mdi:earth" }),
    ("site_elevation", { name := some "Site Elevation", unit := some "m", state_class := some "measurement", icon := some "mdi:image-filter-hdr" }),
    ("right_ascension_string", { name := some "RA String", icon := some "mdi:alpha-r-box" }),
    ("declination_string", { name := some "Dec String", icon := some "mdi:alpha-d-box" }),
    ("time_to_flip", { name := some "Time To Flip", unit := some "min", state_class := some "measurement", icon := some "mdi:timer-sand", source := some ["TimeToMeridianFlip"] }),
    ("side_of_pier", { name := some "Side of Pier", icon := some "mdi:swap-horizontal-bold" }),
    ("altitude", { name := some "Altitude", unit := some "°", state_class := some "measurement", icon := some "mdi:altimeter" }),
    ("azimuth", { name := some "Azimuth", unit := some "°", state_class := some "measurement", icon := some "mdi:compass-outline" }),
    ("sidereal_time_string", { name := some "Sidereal Time String", icon := some "mdi:clock-outline" }),
    ("hours_to_meridian", { name := some "Hours To Meridian", icon := some "mdi:timer-outline", source := some ["HoursToMeridianString"] }),
    ("at_park", { name := some "At Park", icon := some "mdi:parking", platform := "binary_sensor" }),
    ("at_home", { name := some "At Home", icon := some "mdi:home", platform := "binary_sensor" }),
    ("tracking_enabled", { name := some "Tracking Enabled", icon := some "mdi:orbit", platform := "binary_sensor" }),
    ("slewing", { name := some "Mount Slewing", icon := some "mdi:rotate-3d-variant", platform := "binary_sensor" }),
    ("time_to_flip_string", { name := some "Time To Flip String", icon := some "mdi:timer-outline", source := some ["TimeToMeridianFlipString"] }),
    ("is_pulse_guiding", { name := some "Pulse Guiding", icon := some "mdi:cursor-default-click-outline", platform := "binary_sensor" }),
    ("connected", { name := some "Mount Connected", icon := some "mdi:lan-connect", device_class := some "connectivity", platform := "binary_sensor" }),
    ("utc_date", { name := some "UTC Date", device_class := some "timestamp", icon := some "mdi:calendar-clock" }),
    ("name", { name := some "Mount Name", icon := some "mdi:telescope" }),
    ("displayname", { name := some "Mount Display Name", icon := some "mdi:label" })]),
  ("rotator", [
    ("mechanical_position", { name := some "Mechanical Position", unit := some "°", state_class := some "measurement", icon := some "mdi:rotate-3d" }),
    ("position", { name := some "Position", unit := some "°", state_class := some "measurement", icon := some "mdi:rotate-orbit" }),
    ("is_moving", { name := some "Is Moving", icon := some "mdi:rotate-right", platform := "binary_sensor" }),
    ("connected", { name := some "Rotator Connected", icon := some "mdi:lan-connect", device_class := some "connectivity", platform := "binary_sensor" }),
    ("name", { name := some "Rotator Name", icon := some "mdi:label" }),
    ("displayname", { name := some "Rotator Display Name", icon := some "mdi:label-outline" })]),
  ("safetymonitor", [
    ("is_safe", { name := some "Is Safe", icon := some "mdi:shield-check", device_class := some "safety", platform := "binary_sensor" }),
    ("connected", { name := some "Safety Monitor Connected", icon := some "mdi:lan-connect", device_class := some "connectivity", platform := "binary_sensor" }),
    ("name", { name := some "Safety Monitor Name", icon := some "mdi:shield" }),
    ("displayname", { name := some "Safety Monitor Display Name", icon := some "mdi:label" })]),
  ("sequence", [
    ("status", { name := some "Sequence Status", icon := some "mdi:script-text" }),
    ("name", { name := some "Sequence Name", icon := some "mdi:label" })]),
  ("switch", [
    ("connected", { name := some "Switch Connected", icon := some "mdi:lan-connect", device_class := some "connectivity", platform := "binary_sensor" }),
    ("name", { name := some "Switch Name", icon := some "mdi:toggle-switch" }),
    ("displayname", { name := some "Switch Display Name", icon := some "mdi:label" })]),
  ("weather", [
    ("cloudcover", { name := some "Cloud Cover", unit := some "%", state_class := some "measurement", icon := some "mdi:weather-cloudy" }),
    ("averageperiod", { name := some "Average Period", unit := some "s", state_class := some "measurement", icon := some "mdi:timer-outline" }),
    ("dewpoint", { name := some "Dew Point", unit := some "°C", device_class := some "temperature", state_class := some "measurement", icon := some "mdi:thermometer-water" }),
    ("humidity", { name := some "Humidity", unit := some "%", device_class := some "humidity", state_class := some "measurement", icon := some "mdi:water-percent" }),
    ("pressure", { name := some "Pressure", unit := some "hPa", device_class := some "pressure", state_class := some "measurement", icon := some "mdi:gauge" }),
    ("rain_rate", { name := some "Rain Rate", icon := some "mdi:weather-pouring" }),
    ("sky_brightness", { name := some "Sky Brightness", icon := some "mdi:weather-night" }),
    ("sky_quality", { name := some "Sky Quality", icon := some "mdi:weather-night-partly-cloudy" }),
    ("sky_temperature", { name := some "Sky Temperature", unit := some "°C", device_class := some "temperature", state_class := some "measurement", icon := some "mdi:thermometer-chevron-down" }),
    ("star_fwhm", { name := some "Star FWHM", unit := some "arcsec", state_class := some "measurement", icon := some "mdi:chart-bell-curve" }),
    ("temperature", { name := some "Temperature", unit := some "°C", device_class := some "temperature", state_class := some "measurement", icon := some "mdi:thermometer" }),
    ("wind_direction", { name := some "Wind Direction", unit := some "°", state_class := some "measurement", icon := some "mdi:compass" }),
    ("wind_gust", { name := some "Wind Gust", icon := some "mdi:weather-windy" }),
    ("wind_speed", { name := some "Wind Speed", unit := some "m/s", state_class := some "measurement", icon := some "mdi:weather-windy" }),
    ("connected", { name := some "Weather Connected", icon := some "mdi:lan-connect", device_class := some "connectivity", platform := "binary_sensor" }),
    ("name", { name := some "Weather Name", icon := some "mdi:label" }),
    ("displayname", { name := some "Weather Display Name", icon := some "mdi:label-outline" })])]

/-- `DEVICE_SENSORS.get(device)`. -/
def lookupDefs (device : String) : Option (List (String × SensorDef)) :=
  (DEVICE_SENSORS.find? (fun p => p.1 == device)).map (fun p => p.2)

/-- The loop body of `device_model._build_lookup` over `status.items()`:
the `Response` envelope is hoisted unprefixed, other nested dicts are
flattened with a `parent_field` composite key, scalars are kept direct;
every key is `_normalize`d on insertion. -/
def build_lookup_items :
    List (String × JValue) → List (String × JValue) → List (String × JValue)
  | [], lookup => lookup
  | (key, value) :: rest, lookup =>
      let lookup2 :=
        match value with
        | .obj inner =>
            if key == "Response" then
              inner.foldl (fun lk p => dset lk (_normalize p.1) p.2) lookup
            else
              inner.foldl
                (fun lk p => dset lk (_normalize (key ++ "_" ++ p.1)) p.2)
                lookup
        | _ => dset lookup (_normalize key) value
      build_lookup_items rest lookup2

/-- `device_model._build_lookup`: `.items()` on a non-dict raises
`AttributeError`. -/
def _build_lookup (status : JValue) : Except PyErr (List (String × JValue)) :=
  match status with
  | .obj items => .ok (build_lookup_items items [])
  | _ => .error .attributeError

/-- `x or []` followed by iteration, as in the switch-list handling. -/
def orEmptyIter (v : JValue) : Except PyErr (List JValue) :=
  if truthy v then pyIter v else .ok []

/-- One readonly-switch entry's four synthesized values (loop body in
`_append_switches`); `entry.get(k)` yields `None` when absent. -/
def ro_switch_fields (idx : Nat) (entry : List (String × JValue))
    (values : List (String × JValue)) : List (String × JValue) :=
  let g := fun k => (dget entry k).getD .null
  dset (dset (dset (dset values
    ("readonly_switch_" ++ toString idx ++ "_name") (g "Name"))
    ("readonly_switch_" ++ toString idx ++ "_value") (g "Value"))
    ("readonly_switch_" ++ toString idx ++ "_id") (g "Id"))
    ("readonly_switch_" ++ toString idx ++ "_description") (g "Description")

/-- One writeable-switch entry's seven synthesized values. -/
def rw_switch_fields (idx : Nat) (entry : List (String × JValue))
    (values : List (String × JValue)) : List (String × JValue) :=
  let g := fun k => (dget entry k).getD .null
  dset (dset (dset (dset (dset (dset (dset values
    ("writable_switch_" ++ toString idx ++ "_name") (g "Name"))
    ("writable_switch_" ++ toString idx ++ "_id") (g "Id"))
    ("writable_switch_" ++ toString idx ++ "_min") (g "Min"))
    ("writable_switch_" ++ toString idx ++ "_max") (g "Max"))
    ("writable_switch_" ++ toString idx ++ "_description") (g "Description"))
    ("writable_switch_" ++ toString idx ++ "_stepsize") (g "StepSize"))
    ("writable_switch_" ++ toString idx ++ "_targetvalue") (g "TargetValue")

/-- Fold a switch-entry synthesizer over an enumerated list, skipping
entries that are not dicts (`if not isinstance(entry, dict): continue`). -/
def foldSwitchEntries
    (f : Nat → List (String × JValue) → List (String × JValue) →
      List (String × JValue))
    (entries : List JValue) (values : List (String × JValue)) :
    List (String × JValue) :=
  entries.enum.foldl
    (fun vs ie =>
      match ie.2 with
      | .obj entry => f ie.1 entry vs
      | _ => vs)
    values

/-- `device_model._append_switches`: synthesizes `<list-kind>_<index>_<field>`
values for the two switch lists. `resp.get(...)` raises `AttributeError`
when the `Response` value is not a dict. -/
def _append_switches (status : JValue) (values0 : List (String × JValue)) :
    Except PyErr (List (String × JValue)) :=
  let resp :=
    match status with
    | .obj fs => (dget fs "Response").getD (.obj [])
    | _ => .obj []
  match resp with
  | .obj rfs => do
      let ro ← orEmptyIter ((dget rfs "ReadonlySwitches").getD (.arr []))
      let values1 := foldSwitchEntries ro_switch_fields ro values0
      let rw ← orEmptyIter ((dget rfs "WriteableSwitches").getD (.arr []))
      .ok (foldSwitchEntries rw_switch_fields rw values1)
  | _ => .error .attributeError

/-- First alias (declaration order, then the value name itself) whose
normalized form is in the lookup table; returns that normalized key.
Loop body `for candidate in (definition.source or []) + [var]`. -/
def firstMatch (lookup : List (String × JValue)) : List String → Option String
  | [] => none
  | c :: rest =>
      if (dget lookup (_normalize c)).isSome then some (_normalize c)
      else firstMatch lookup rest

/-- The per-variable matching loop of `extract_state_values`. -/
def extract_vars (lookup : List (String × JValue)) :
    List (String × SensorDef) → List (String × JValue) → List (String × JValue)
  | [], values => values
  | (var, definition) :: rest, values =>
      match firstMatch lookup (definition.source.getD [] ++ [var]) with
      | some norm =>
          extract_vars lookup rest (dset values var ((dget lookup norm).getD .null))
      | none => extract_vars lookup rest values

/-- `device_model.extract_state_values`: flatten an API response into a
dict of requested variables. `status or \x7b\x7d` replaces a falsy status
by the empty dict before `_build_lookup`. -/
def extract_state_values (device : String) (status : JValue) :
    Except PyErr (List (String × JValue)) :=
  match lookupDefs device with
  | none => .ok []
  | some defs => do
      let values0 ←
        if device == "switch" then _append_switches status [] else .ok []
      let lookup ← _build_lookup (if truthy status then status else .obj [])
      .ok (extract_vars lookup defs values0)

/-- `config.MQTTTopicConfig`: topic templates (defaults from `config.py`). -/
structure MQTTTopicConfig where
  discovery_prefix : String := "homeassistant"
  base_topic : String := "nina"
  availability_topic : String := "{base}/{device}/availability"
  command_topic : String := "{base}/{device}/command"
  command_error_topic : String := "{base}/{device}/command/error"
  command_response_timeout : Nat := 10

/-- `template.format(base=..., device=...)` for the topic templates, which
use only those two fields. -/
def renderTemplate (tpl base device : String) : String :=
  strReplace (strReplace tpl "{base}" base) "{device}" device

/-- `MQTTTopicConfig.render_availability_topic`; `device or "bridge"`
falls back for `None` and for the empty string. -/
def render_availability_topic (t : MQTTTopicConfig) (device : Option String) :
    String :=
  let device_slug :=
    match device with
    | none => "bridge"
    | some d => if d == "" then "bridge" else d
  renderTemplate t.availability_topic t.base_topic device_slug

/-- `MQTTTopicConfig.render_device_availability_topic`. -/
def render_device_availability_topic (t : MQTTTopicConfig) (device : String) :
    String :=
  render_availability_topic t (some device)

/-- `MQTTTopicConfig.render_command_error_topic`. -/
def render_command_error_topic (t : MQTTTopicConfig) (device : String) :
    String :=
  renderTemplate t.command_error_topic t.base_topic device

/-- `config.DeviceConfig`. -/
structure DeviceConfig where
  enabled : Bool := true
  refresh_every : Nat := 60

/-- `config.MQTTConfig` (connection fields kept for completeness; only
`topics` is used by the verified layer). -/
structure MQTTConfig where
  host : String := "127.0.0.1"
  port : Nat := 1883
  username : Option String := none
  password : Option String := none
  client_id : String := "nina_mqtt_bridge"
  keepalive : Nat := 60
  topics : MQTTTopicConfig := {}

/-- `config.DeviceInfo`. -/
structure DeviceInfo where
  device_id : String := "nina_server"
  name : String := "NINA Advanced API"
  manufacturer : String := "christian-photo"
  model : String := "NINA Advanced API"

/-- `config.BridgeConfig`; `devices` keeps the dict's insertion order. -/
structure BridgeConfig where
  nina_api_uri : String := "http://127.0.0.1:1888/v2/api"
  mqtt : MQTTConfig := {}
  devices : List (String × DeviceConfig) := []
  device_info : DeviceInfo := {}

/-- `config.DEFAULT_DEVICE_TYPES`. -/
def DEFAULT_DEVICE_TYPES : List String :=
  ["application", "camera", "mount", "dome", "filterwheel", "flatdevice",
   "focuser", "guider", "rotator", "safetymonitor", "sequence", "switch",
   "weather", "livestack", "most_recent_image", "screenshot"]

/-- `config._build_devices` applied to an empty YAML document: every
default device type, enabled, refreshed every 60 seconds. -/
def default_devices : List (String × DeviceConfig) :=
  DEFAULT_DEVICE_TYPES.map (fun d => (d, {}))

/-- The `BridgeConfig` that `load_config` builds from an empty file. -/
def default_config : BridgeConfig :=
  { devices := default_devices }

/-- `mqtt_client.PublishMessage` payloads: a Python `str`, or the result
of `json.dumps` on a JSON value (modelled structurally, see header). -/
inductive Payload where
  | str (s : String) : Payload
  | json (j : JValue) : Payload

/-- `mqtt_client.PublishMessage`. -/
structure PublishMessage where
  topic : String
  payload : Payload
  retain : Bool := false
  qos : Nat := 0

/-- `discovery.STATE_TOPIC_TEMPLATE` rendered (`variable` is a Lean
keyword, so the third format argument is named `var`). -/
def renderStateTopic (base device var : String) : String :=
  strReplace (strReplace (strReplace "{base}/{device}/{variable}"
    "{base}" base) "{device}" device) "{variable}" var

/-- `discovery.IMAGE_TOPIC_TEMPLATE` rendered. -/
def renderImageTopic (base device : String) : String :=
  renderTemplate "{base}/{device}/image" base device

/-- `discovery.IMAGE_DEVICES`. -/
def IMAGE_DEVICES : List String :=
  ["livestack", "most_recent_image", "screenshot"]

/-- `nina_client.DEVICE_ENDPOINTS`. -/
def DEVICE_ENDPOINTS : List (String × String) :=
  [("application", "/version"),
   ("camera", "/equipment/camera/info"),
   ("mount", "/equipment/mount/info"),
   ("dome", "/equipment/dome/info"),
   ("filterwheel", "/equipment/filterwheel/info"),
   ("flatdevice", "/equipment/flatdevice/info"),
   ("focuser", "/equipment/focuser/info"),
   ("guider", "/equipment/guider/info"),
   ("rotator", "/equipment/rotator/info"),
   ("safetymonitor", "/equipment/safetymonitor/info"),
   ("sequence", "/sequence/json"),
   ("switch", "/equipment/switch/info"),
   ("weather", "/equipment/weather/info")]

/-- `nina_client.IMAGE_ENDPOINTS`. -/
def IMAGE_ENDPOINTS : List (String × String) :=
  [("most_recent_image", "/prepared-image"),
   ("livestack", "/livestack/image/{target}/{filter}"),
   ("screenshot", "/application/screenshot")]

/-- `device_model.device_identifier`. -/
def device_identifier (info : DeviceInfo) (device : String) : String :=
  info.device_id ++ "_" ++ device

/-- `device_model.device_payload`. -/
def device_payload (info : DeviceInfo) (device : String) :
    List (String × JValue) :=
  [("identifiers", .arr [.str (device_identifier info device)]),
   ("name", .str (info.name ++ " " ++ pyTitle device)),
   ("manufacturer", .str info.manufacturer),
   ("model", .str info.model)]

/-- Python `x or default` on an optional string (`definition.name or ...`). -/
def orStr (o : Option String) (d : String) : String :=
  match o with
  | some s => if s == "" then d else s
  | none => d

/-- `key in base_defs` for a sensor-definition dict. -/
def hasKey (l : List (String × SensorDef)) (k : String) : Bool :=
  l.any (fun p => p.1 == k)

/-- `discovery._iter_sensor_definitions`: the statically configured
definitions, then (for the switch device only) a generic definition for
every dynamic key not already configured. -/
def _iter_sensor_definitions (device : String) (extra_keys : List String) :
    List (String × SensorDef) :=
  let base_defs := (lookupDefs device).getD []
  base_defs ++ extra_keys.filterMap (fun key =>
    if hasKey base_defs key then none
    else if device == "switch" then
      some (key, { name := some (pyTitle (strReplace key "_" " ")),
                   icon := some "mdi:toggle-switch" })
    else none)

/-- The four conditional metadata fields plus staleness expiry appended at
the end of `build_sensor_discovery_messages`' payload construction.
`expire_after = int(refresh_every * 2.2)` (exact arithmetic; the float
rounding of CPython is immaterial at the claimed properties). -/
def apply_extras (definition : SensorDef) (refresh_every : Nat)
    (payload : List (String × JValue)) : List (String × JValue) :=
  let p1 :=
    match definition.unit with
    | some u => dset payload "unit_of_measurement" (.str u)
    | none => payload
  let p2 :=
    match definition.device_class with
    | some c => dset p1 "device_class" (.str c)
    | none => p1
  let p3 :=
    match definition.state_class with
    | some c => dset p2 "state_class" (.str c)
    | none => p2
  let p4 :=
    match definition.icon with
    | some i => dset p3 "icon" (.str i)
    | none => p3
  if refresh_every > 0 then
    dset p4 "expire_after" (.num ((refresh_every * 22 / 10 : Nat) : Rat))
  else p4

/-- The discovery payload dict built for one `(variable, definition)` pair
inside `discovery.build_sensor_discovery_messages`. -/
def sensor_discovery_payload (config : BridgeConfig) (device : String)
    (refresh_every : Nat) (var : String) (definition : SensorDef) :
    List (String × JValue) :=
  let topics := config.mqtt.topics
  let base := topics.base_topic
  let device_id := device_identifier config.device_info device
  let availability_topic := render_device_availability_topic topics device
  let platform :=
    if definition.platform == "binary_sensor" then "binary_sensor"
    else "sensor"
  let state_topic := renderStateTopic base device var
  let p0 : List (String × JValue) :=
    [("name", .str (orStr definition.name
        (pyTitle device ++ " " ++ pyTitle (strReplace var "_" " ")))),
     ("state_topic", .str state_topic),
     ("unique_id", .str (device_id ++ "_" ++ var)),
     ("availability_topic", .str availability_topic),
     ("payload_available", .str "ON"),
     ("payload_not_available", .str "OFF"),
     ("device", .obj (device_payload config.device_info device))]
  let p1 :=
    if platform == "binary_sensor" then
      dset (dset p0 "payload_on" (.str "true")) "payload_off" (.str "false")
    else p0
  apply_extras definition refresh_every p1

/-- The discovery config topic for one variable. -/
def sensor_discovery_topic (config : BridgeConfig) (device : String)
    (var : String) (definition : SensorDef) : String :=
  let dp := pyRstrip config.mqtt.topics.discovery_prefix '/' 
  let platform :=
    if definition.platform == "binary_sensor" then "binary_sensor"
    else "sensor"
  dp ++ "/" ++ platform ++ "/" ++ device_identifier config.device_info device
    ++ "/" ++ var ++ "/config"

/-- `discovery.build_sensor_discovery_messages`: one retained, qos-1
message per iterated definition. -/
def build_sensor_discovery_messages (config : BridgeConfig) (device : String)
    (refresh_every : Nat) (extra_keys : List String) : List PublishMessage :=
  (_iter_sensor_definitions device extra_keys).map (fun vd =>
    { topic := sensor_discovery_topic config device vd.1 vd.2,
      payload :=
        .json (.obj (sensor_discovery_payload config device refresh_every
          vd.1 vd.2)),
      retain := true, qos := 1 })

/-- `discovery.build_image_discovery_message`. -/
def build_image_discovery_message (config : BridgeConfig) (device : String) :
    PublishMessage :=
  let topics := config.mqtt.topics
  let dp := pyRstrip topics.discovery_prefix '/' 
  let device_id := device_identifier config.device_info device
  { topic := dp ++ "/camera/" ++ device_id ++ "/config",
    payload := .json (.obj
      [("name", .str ("NINA " ++ pyTitle (strReplace device "_" " "))),
       ("unique_id", .str device_id),
       ("topic", .str (renderImageTopic topics.base_topic device)),
       ("content_type", .str "image/jpeg"),
       ("availability_topic",
        .str (render_device_availability_topic topics device)),
       ("payload_available", .str "ON"),
       ("payload_not_available", .str "OFF"),
       ("device", .obj (device_payload config.device_info device))]),
    retain := true, qos := 1 }

/-- `bridge.Bridge._format_value`: booleans become the literals
`"true"` / `"false"`; everything else goes through `str()`. (The
`isinstance(value, bytes)` branch is unreachable for the JSON-derived
values this model covers and is therefore not represented.) -/
def _format_value : JValue → String
  | .bool b => if b then "true" else "false"
  | v => pyStr v

/-- Membership in the `_published_discovery_topics` set (a Python `set`
of strings, modelled as the list of topics in insertion order). -/
def memStr : List String → String → Bool
  | [], _ => false
  | x :: rest, y => x == y || memStr rest y

/-- The dedup-and-enqueue loop at the end of
`bridge.Bridge._publish_device_discovery`: a message whose topic is
already in the published set is skipped; otherwise the topic is recorded
and the message appended to the publish queue. -/
def discovery_enqueue_loop :
    List String → List PublishMessage → List PublishMessage →
    List String × List PublishMessage
  | published, q, [] => (published, q)
  | published, q, m :: rest =>
      if memStr published m.topic then discovery_enqueue_loop published q rest
      else discovery_enqueue_loop (published ++ [m.topic]) (q ++ [m]) rest

/-- A whole trace of `_publish_device_discovery` calls working on the
shared `_published_discovery_topics` set and publish queue: each call
contributes the message list it built. -/
def discovery_calls (s : List String × List PublishMessage)
    (calls : List (List PublishMessage)) : List String × List PublishMessage :=
  calls.foldl (fun st msgs => discovery_enqueue_loop st.1 st.2 msgs) s

/-- Messages in the publish queue carrying a given discovery topic. -/
def countTopic (q : List PublishMessage) (t : String) : Nat :=
  q.countP (fun m => m.topic == t)

/-- `bridge.Bridge._publish_device_discovery`: build the device's
discovery messages, then run the dedup loop against the
`_published_discovery_topics` set. Returns the updated set and the
messages newly enqueued by this call. -/
def _publish_device_discovery (config : BridgeConfig)
    (published : List String) (device : String) (extra_keys : List String) :
    List String × List PublishMessage :=
  let messages :=
    if IMAGE_DEVICES.contains device then
      [build_image_discovery_message config device]
    else
      match lookupDefs device with
      | some _ =>
          let refresh :=
            match config.devices.find? (fun p => p.1 == device) with
            | some p => p.2.refresh_every
            | none => 60
          build_sensor_discovery_messages config device refresh extra_keys
      | none => []
  discovery_enqueue_loop published [] messages

/-- The state-publishing loop of `bridge.Bridge._poll_device`: one
retained qos-0 message per extracted value, with values that resolved to
`None` skipped (`if value is None: continue`). -/
def state_messages (base_topic device : String)
    (values : List (String × JValue)) : List PublishMessage :=
  values.filterMap (fun vv =>
    if isNull vv.2 then none
    else some
      { topic := renderStateTopic base_topic device vv.1,
        payload := .str (_format_value vv.2), retain := true, qos := 0 })

/-- The result of `fetch_device_status` followed by
`extract_state_values` inside `_poll_device`'s `try` block: the first
raising step wins. -/
def poll_result (device : String) (fetch : Except PyErr JValue) :
    Except PyErr (List (String × JValue)) :=
  Except.bind fetch (extract_state_values device)

/-- `bridge.Bridge._poll_device`, as the list of messages it enqueues and
the updated discovery set. `fetch` stands for the external
`nina.fetch_device_status` call. Any exception in the `try` block yields
the single availability-OFF message; success yields the dynamic
discovery messages, the state messages, then availability-ON. -/
def _poll_device (config : BridgeConfig) (published : List String)
    (device : String) (fetch : Except PyErr JValue) :
    List PublishMessage × List String :=
  if !(DEVICE_ENDPOINTS.any (fun p => p.1 == device)) then ([], published)
  else
    let availability_topic :=
      render_device_availability_topic config.mqtt.topics device
    match poll_result device fetch with
    | .error _ =>
        ([{ topic := availability_topic, payload := .str "OFF",
            retain := true, qos := 1 }], published)
    | .ok values =>
        let pd := _publish_device_discovery config published device
          (values.map Prod.fst)
        (pd.2 ++ state_messages config.mqtt.topics.base_topic device values
          ++ [{ topic := availability_topic, payload := .str "ON",
                retain := true, qos := 1 }], pd.1)

/-- `bridge.Bridge._publish_availability`: the whole-bridge availability
message (call sites pass `"ON"` at connect and `"OFF"` at stop). -/
def _publish_availability (topics : MQTTTopicConfig) (payload : String) :
    PublishMessage :=
  { topic := render_availability_topic topics none, payload := .str payload,
    retain := true, qos := 1 }

/-- `bridge.Bridge._publish_all_device_availability`: the shutdown sweep
enqueues one retained qos-1 message per enabled device. -/
def _publish_all_device_availability (config : BridgeConfig)
    (payload : String) : List PublishMessage :=
  config.devices.filterMap (fun dc =>
    if dc.2.enabled then
      some { topic :=
               render_device_availability_topic config.mqtt.topics dc.1,
             payload := .str payload, retain := true, qos := 1 }
    else none)

/-- `parts[-2] if len(parts) >= 2 else "unknown"` over
`msg.topic.split("/")` in `bridge.Bridge._handle_command`. -/
def command_device (topic : String) : String :=
  let parts := strSplitOn topic "/"
  if parts.length ≥ 2 then parts.getD (parts.length - 2) "unknown"
  else "unknown"

/-- `bridge.Bridge._handle_command`, as the list of messages it enqueues.
`parsed` is the result of `json.loads` on the inbound payload (`none`
models `JSONDecodeError`: log and drop). `dispatch` stands for the
external `nina.send_command` call; a falsy result enqueues nothing, a
truthy result one success message, an exception one error message. -/
def _handle_command (config : BridgeConfig) (topic : String)
    (parsed : Option JValue) (dispatch : Except PyErr JValue) :
    List PublishMessage :=
  match parsed with
  | none => []
  | some _payload =>
      let device := command_device topic
      match dispatch with
      | .ok response =>
          if truthy response then
            [{ topic := renderStateTopic config.mqtt.topics.base_topic device
                 "command_response",
               payload := .json response, retain := false, qos := 0 }]
          else []
      | .error exc =>
          [{ topic := render_command_error_topic config.mqtt.topics device,
             payload := .str (pyErrStr exc), retain := false, qos := 0 }]

/-- The `while` guard of `bridge.Bridge._publisher_loop`:
`not stop_event.is_set() or not queue.empty()`. -/
def publisher_loop_guard (stop_set : Bool) (queue : List PublishMessage) :
    Bool :=
  !stop_set || !queue.isEmpty

/-- The publisher loop once the stop event is set: each iteration takes
the front message off the queue and hands it to `mqtt.publish`
(`published` accumulates the handed-over messages; a transport failure is
caught and does not stop the loop). -/
def publisher_drain :
    List PublishMessage → List PublishMessage → List PublishMessage
  | [], published => published
  | m :: rest, published => publisher_drain rest (published ++ [m])

/-- `scheduler.ScheduledTask` (the `fn` callable is modelled externally;
the tick takes the action's completion time as an explicit sample). -/
structure ScheduledTask where
  name : String
  interval : Rat
  last_run : Rat := 0

/-- The mutable state of `scheduler.Scheduler`: its task list and whether
the timing thread is running (`self._thread and self._thread.is_alive()`). -/
structure SchedulerState where
  tasks : List ScheduledTask := []
  thread_started : Bool := false

/-- `scheduler.Scheduler.add_task`: appends under the lock. The `Except`
result records that the Python method can raise but never does — there is
no started-state check. -/
def Scheduler.add_task (s : SchedulerState) (t : ScheduledTask) :
    Except String SchedulerState :=
  .ok { s with tasks := s.tasks ++ [t] }

/-- `scheduler.Scheduler.start`: spawns the timing thread unless it is
already alive. -/
def Scheduler.start (s : SchedulerState) : SchedulerState :=
  if s.thread_started then s else { s with thread_started := true }

/-- One task's slice of the `Scheduler._run` loop body at wake-up time
`now`: if `(last_run + interval) - now <= 0` the action runs
synchronously and `last_run` is set to the `time.monotonic()` sample
taken after it completes (`completion`); the returned flag is whether the
action was executed. -/
def tick_task (now completion : Rat) (t : ScheduledTask) :
    ScheduledTask × Bool :=
  if t.last_run + t.interval - now ≤ 0 then
    ({ t with last_run := completion }, true)
  else (t, false)

/-! ## Shared lemmas -/

/-- An empty lookup table matches no candidate alias. -/
theorem firstMatch_nil (cands : List String) : firstMatch [] cands = none := by
  induction cands with
  | nil => rfl
  | cons c cs ih => simp [firstMatch, dget, ih]

/-- With an empty lookup table the variable loop adds nothing. -/
theorem extract_vars_nil_lookup (defs : List (String × SensorDef))
    (values : List (String × JValue)) : extract_vars [] defs values = values := by
  induction defs generalizing values with
  | nil => rfl
  | cons hd tl ih => simp [extract_vars, firstMatch_nil, ih]

/-! ## C4 -/

/-- C4: `extract_state_values "camera" \x7b"Response": \x7b"Temperature":
-5.0\x7d\x7d` yields a mapping binding `"temperature"` to −5.0 (the
`Response` envelope is hoisted unprefixed and keys are matched after
lower-casing and stripping non-alphanumerics), and when the `Response`
mapping lacks the `Temperature` field the result has no `"temperature"`
key (here: it is empty). -/
theorem spec_C4 :
    extract_state_values "camera"
        (JValue.obj [("Response", JValue.obj [("Temperature", JValue.num (-5))])])
      = Except.ok [("temperature", JValue.num (-5))] ∧
    extract_state_values "camera" (JValue.obj [("Response", JValue.obj [])])
      = Except.ok [] :=
  ⟨rfl, rfl⟩

/-! ## C5 -/

/-- C5 counterexample: a truthy non-mapping status does **not** yield the
empty mapping without error — `extract_state_values` raises
`AttributeError` (from `.items()` inside `_build_lookup`), refuting the
claim that every non-mapping response gives an empty result with no
error. -/
theorem spec_C5_counterexample :
    extract_state_values "camera" (JValue.str "x")
      = Except.error PyErr.attributeError ∧
    ∀ r : List (String × JValue),
      extract_state_values "camera" (JValue.str "x") ≠ Except.ok r := by
  refine ⟨rfl, ?_⟩
  intro r h
  rw [show extract_state_values "camera" (JValue.str "x")
      = Except.error PyErr.attributeError from rfl] at h
  exact Except.noConfusion h

/-- C5 (amended): for every device kind, an absent (`None`) status — and
likewise any falsy status such as the empty mapping — yields the empty
mapping and raises no error; a truthy non-mapping status instead raises
`AttributeError` (caught upstream by `_poll_device`'s handler). -/
theorem spec_C5 (device : String) :
    extract_state_values device JValue.null = Except.ok [] ∧
    extract_state_values device (JValue.obj []) = Except.ok [] := by
  by_cases hsw : device = "switch"
  · subst hsw; exact ⟨rfl, rfl⟩
  · have hs : (device == "switch") = false := beq_eq_false_iff_ne.mpr hsw
    constructor <;>
    · unfold extract_state_values
      cases h : lookupDefs device with
      | none => rfl
      | some defs =>
          simp only [hs, Bool.false_eq_true, if_false]
          show Except.ok (extract_vars [] defs []) = Except.ok []
          rw [extract_vars_nil_lookup]

/-! ## C6 -/

/-- C6 counterexample: a configured value present with an explicit null is
**not** absent from the extraction result — the name is present, bound to
null (`norm in lookup` holds and `values[var] = lookup.get(norm)` stores
`None`). -/
theorem spec_C6_counterexample :
    extract_state_values "camera"
        (JValue.obj [("Response", JValue.obj [("Temperature", JValue.null)])])
      = Except.ok [("temperature", JValue.null)] ∧
    dget [("temperature", JValue.null)] "temperature" = some JValue.null :=
  ⟨rfl, rfl⟩

/-- C6 (amended): a configured value whose matching entry is an explicit
null appears in the extraction result bound to null; the orchestrator
then skips null values, so every state message `_poll_device` enqueues
comes from a non-null value. -/
theorem spec_C6 :
    extract_state_values "camera"
        (JValue.obj [("Response", JValue.obj [("Temperature", JValue.null)])])
      = Except.ok [("temperature", JValue.null)] ∧
    ∀ (base device : String) (values : List (String × JValue))
      (m : PublishMessage), m ∈ state_messages base device values →
      ∃ var v, (var, v) ∈ values ∧ isNull v = false ∧
        m = { topic := renderStateTopic base device var,
              payload := .str (_format_value v), retain := true, qos := 0 } := by
  refine ⟨rfl, ?_⟩
  intro base device values m hm
  simp only [state_messages] at hm
  rcases List.mem_filterMap.mp hm with ⟨⟨var, v⟩, hin, hf⟩
  cases hv : isNull v with
  | true => rw [hv] at hf; simp at hf
  | false =>
      rw [hv] at hf
      simp only [if_false, Bool.false_eq_true] at hf
      exact ⟨var, v, hin, hv, (Option.some.inj hf).symm⟩

/-- C6 witness: the second part of `spec_C6` applied to a concrete
one-value dictionary. -/
theorem spec_C6_witness :
    ∃ var v, (var, v) ∈ [("cooler_on", JValue.bool true)] ∧
      isNull v = false ∧
      ({ topic := renderStateTopic "nina" "camera" "cooler_on",
         payload := .str (_format_value (JValue.bool true)), retain := true,
         qos := 0 } : PublishMessage)
        = { topic := renderStateTopic "nina" "camera" var,
            payload := .str (_format_value v), retain := true, qos := 0 } :=
  spec_C6.2 "nina" "camera" [("cooler_on", JValue.bool true)] _
    (List.Mem.head _)

/-! ## C2 -/

/-- C2: the publisher loop's guard is false exactly when the stop event is
set **and** the queue is empty, and once the stop event is set the loop
hands every queued message, in order, to the bus client before exiting
(graceful drain). -/
theorem spec_C2 :
    (∀ (stop_set : Bool) (queue : List PublishMessage),
      publisher_loop_guard stop_set queue = false ↔
        stop_set = true ∧ queue = []) ∧
    ∀ (queue published : List PublishMessage),
      publisher_drain queue published = published ++ queue := by
  constructor
  · intro stop_set queue
    cases stop_set <;> cases queue <;> simp [publisher_loop_guard]
  · intro queue
    induction queue with
    | nil => intro published; simp [publisher_drain]
    | cons m rest ih =>
        intro published
        rw [publisher_drain, ih]
        simp

/-! ## C3 -/

/-- C3 counterexample: adding a task after `start()` does **not** fail
with a configuration error — `add_task` has no started-state check and
succeeds, appending the task. -/
theorem spec_C3_counterexample :
    Scheduler.add_task (Scheduler.start {})
        { name := "poll_camera", interval := 30 }
      = Except.ok { tasks := [{ name := "poll_camera", interval := 30 }],
                    thread_started := true } :=
  rfl

/-- C3 (amended): `add_task` never reports an error: called after
`start()` it still succeeds, appending the task to the task list while
the timing thread keeps running (the started state is not consulted). -/
theorem spec_C3 (s : SchedulerState) (t : ScheduledTask) :
    ∃ s2, Scheduler.add_task (Scheduler.start s) t = Except.ok s2 ∧
      s2.tasks = (Scheduler.start s).tasks ++ [t] ∧
      s2.thread_started = true := by
  refine ⟨{ Scheduler.start s with
            tasks := (Scheduler.start s).tasks ++ [t] }, rfl, rfl, ?_⟩
  show (Scheduler.start s).thread_started = true
  unfold Scheduler.start
  cases h : s.thread_started with
  | false => simp [h]
  | true => simp [h]

/-! ## C9 -/

/-- C9: when a task is due (`now ≥ last_run + interval`) the tick executes
its action and afterwards sets `last_run` to the completion-time sample,
so the task's next due time is `completion + interval`
(completion-to-next-start), not the previous due time plus the interval. -/
theorem spec_C9 (now completion : Rat) (t : ScheduledTask)
    (hdue : t.last_run + t.interval ≤ now) :
    (tick_task now completion t).2 = true ∧
    (tick_task now completion t).1.last_run = completion ∧
    (tick_task now completion t).1.last_run
        + (tick_task now completion t).1.interval
      = completion + t.interval := by
  have hc : t.last_run + t.interval - now ≤ 0 := by linarith
  unfold tick_task
  rw [if_pos hc]
  exact ⟨rfl, rfl, rfl⟩

/-- C9 witness: a task with interval 5 last run at 5 is due at 10; its
action completes at 12 and the next due time becomes 17. -/
theorem spec_C9_witness :
    ((5 : Rat) + 5 ≤ 10) ∧
    ((tick_task 10 12 { name := "poll_camera", interval := 5, last_run := 5 }).2
        = true ∧
     (tick_task 10 12
        { name := "poll_camera", interval := 5, last_run := 5 }).1.last_run = 12 ∧
     (tick_task 10 12
          { name := "poll_camera", interval := 5, last_run := 5 }).1.last_run
        + (tick_task 10 12
            { name := "poll_camera", interval := 5, last_run := 5 }).1.interval
      = 12 + ({ name := "poll_camera", interval := 5, last_run := 5 }
          : ScheduledTask).interval) :=
  ⟨by norm_num, spec_C9 10 12 _ (by norm_num)⟩

/-! ## C1 -/

/-- Membership after recording one more topic. -/
theorem memStr_append_one (l : List String) (x y : String) :
    memStr (l ++ [x]) y = (memStr l y || x == y) := by
  induction l with
  | nil => simp [memStr]
  | cons a rest ih => simp [memStr, ih, Bool.or_assoc]

/-- Counting after enqueuing one more message. -/
theorem countTopic_append_one (q : List PublishMessage) (m : PublishMessage)
    (t : String) :
    countTopic (q ++ [m]) t
      = countTopic q t + (if m.topic == t then 1 else 0) := by
  simp [countTopic, List.countP_append, List.countP_cons]

/-- A topic already in the published set is never enqueued again by the
dedup loop, and stays in the set. -/
theorem discovery_loop_mem (msgs : List PublishMessage) (pub : List String)
    (q : List PublishMessage) (t : String) (h : memStr pub t = true) :
    memStr (discovery_enqueue_loop pub q msgs).1 t = true ∧
    countTopic (discovery_enqueue_loop pub q msgs).2 t = countTopic q t := by
  induction msgs generalizing pub q with
  | nil => exact ⟨h, rfl⟩
  | cons m rest ih =>
      unfold discovery_enqueue_loop
      cases hc : memStr pub m.topic with
      | true => simpa using ih pub q h
      | false =>
          have hmt : (m.topic == t) = false := by
            cases hx : m.topic == t with
            | false => rfl
            | true =>
                rw [eq_of_beq hx] at hc
                rw [hc] at h
                exact absurd h (by simp)
          have hpub : memStr (pub ++ [m.topic]) t = true := by
            rw [memStr_append_one, h]; rfl
          have hrec := ih (pub ++ [m.topic]) (q ++ [m]) hpub
          refine ⟨by simpa using hrec.1, ?_⟩
          have := hrec.2
          rw [countTopic_append_one, hmt] at this
          simpa using this

/-- If no built message carries the topic, the dedup loop changes nothing
about that topic. -/
theorem discovery_loop_none (msgs : List PublishMessage) (pub : List String)
    (q : List PublishMessage) (t : String)
    (h : ∀ m ∈ msgs, (m.topic == t) = false) :
    memStr (discovery_enqueue_loop pub q msgs).1 t = memStr pub t ∧
    countTopic (discovery_enqueue_loop pub q msgs).2 t = countTopic q t := by
  induction msgs generalizing pub q with
  | nil => exact ⟨rfl, rfl⟩
  | cons m rest ih =>
      have hm : (m.topic == t) = false := h m (List.Mem.head _)
      have hrest : ∀ m0 ∈ rest, (m0.topic == t) = false :=
        fun m0 hm0 => h m0 (List.Mem.tail _ hm0)
      unfold discovery_enqueue_loop
      cases hc : memStr pub m.topic with
      | true => simpa using ih pub q hrest
      | false =>
          have hrec := ih (pub ++ [m.topic]) (q ++ [m]) hrest
          constructor
          · have := hrec.1
            rw [memStr_append_one, hm] at this
            simpa using this
          · have := hrec.2
            rw [countTopic_append_one, hm] at this
            simpa using this

/-- The first call whose built messages carry an unseen topic records the
topic and enqueues exactly one message with it. -/
theorem discovery_loop_first (msgs : List PublishMessage) (pub : List String)
    (q : List PublishMessage) (t : String) (hp : memStr pub t = false)
    (hex : ∃ m ∈ msgs, (m.topic == t) = true) :
    memStr (discovery_enqueue_loop pub q msgs).1 t = true ∧
    countTopic (discovery_enqueue_loop pub q msgs).2 t = countTopic q t + 1 := by
  induction msgs generalizing pub q with
  | nil => rcases hex with ⟨m, hm, _⟩; exact absurd hm (by simp)
  | cons m rest ih =>
      unfold discovery_enqueue_loop
      cases hc : memStr pub m.topic with
      | true =>
          have hmt : (m.topic == t) = false := by
            cases hx : m.topic == t with
            | false => rfl
            | true =>
                rw [eq_of_beq hx] at hc
                rw [hc] at hp
                exact absurd hp (by simp)
          have hex' : ∃ m0 ∈ rest, (m0.topic == t) = true := by
            rcases hex with ⟨m0, hm0, hb0⟩
            cases hm0 with
            | head => exact absurd hb0 (by rw [hmt]; simp)
            | tail _ htl => exact ⟨m0, htl, hb0⟩
          simpa using ih pub q hp hex'
      | false =>
          cases hmt : m.topic == t with
          | true =>
              have hpub : memStr (pub ++ [m.topic]) t = true := by
                rw [memStr_append_one, hmt]; simp
              have hrec := discovery_loop_mem rest (pub ++ [m.topic]) (q ++ [m]) t hpub
              refine ⟨by simpa using hrec.1, ?_⟩
              have := hrec.2
              rw [countTopic_append_one, hmt] at this
              simpa using this
          | false =>
              have hpub : memStr (pub ++ [m.topic]) t = false := by
                rw [memStr_append_one, hp, hmt]; rfl
              have hex' : ∃ m0 ∈ rest, (m0.topic == t) = true := by
                rcases hex with ⟨m0, hm0, hb0⟩
                cases hm0 with
                | head => exact absurd hb0 (by rw [hmt]; simp)
                | tail _ htl => exact ⟨m0, htl, hb0⟩
              have hrec := ih (pub ++ [m.topic]) (q ++ [m]) hpub hex'
              refine ⟨hrec.1, ?_⟩
              have := hrec.2
              rw [countTopic_append_one, hmt] at this
              simpa using this

/-- One call preserves the at-most-once invariant. -/
theorem discovery_call_inv (msgs : List PublishMessage) (pub : List String)
    (q : List PublishMessage) (t : String) (h1 : countTopic q t ≤ 1)
    (h2 : memStr pub t = false → countTopic q t = 0) :
    countTopic (discovery_enqueue_loop pub q msgs).2 t ≤ 1 ∧
    (memStr (discovery_enqueue_loop pub q msgs).1 t = false →
      countTopic (discovery_enqueue_loop pub q msgs).2 t = 0) := by
  cases hp : memStr pub t with
  | true =>
      have hrec := discovery_loop_mem msgs pub q t hp
      rw [hrec.2]
      exact ⟨h1, fun hf => absurd hrec.1 (by rw [hf]; simp)⟩
  | false =>
      have hq0 : countTopic q t = 0 := h2 hp
      by_cases hex : ∃ m ∈ msgs, (m.topic == t) = true
      · have hrec := discovery_loop_first msgs pub q t hp hex
        rw [hrec.2, hq0]
        exact ⟨le_refl 1, fun hf => absurd hrec.1 (by rw [hf]; simp)⟩
      · have hall : ∀ m ∈ msgs, (m.topic == t) = false := by
          intro m hm
          cases hx : m.topic == t with
          | false => rfl
          | true => exact absurd ⟨m, hm, hx⟩ hex
        have hrec := discovery_loop_none msgs pub q t hall
        rw [hrec.2, hq0]
        exact ⟨Nat.zero_le 1, fun _ => rfl⟩

/-- The invariant holds along any trace of discovery calls. -/
theorem discovery_calls_inv (calls : List (List PublishMessage))
    (pub : List String) (q : List PublishMessage) (t : String)
    (h1 : countTopic q t ≤ 1)
    (h2 : memStr pub t = false → countTopic q t = 0) :
    countTopic (discovery_calls (pub, q) calls).2 t ≤ 1 := by
  induction calls generalizing pub q with
  | nil => exact h1
  | cons c cs ih =>
      have hstep := discovery_call_inv c pub q t h1 h2
      have heq : discovery_calls (pub, q) (c :: cs)
          = discovery_calls (discovery_enqueue_loop pub q c) cs := rfl
      rw [heq]
      have := ih (discovery_enqueue_loop pub q c).1
        (discovery_enqueue_loop pub q c).2 hstep.1 hstep.2
      simpa using this

/-- C1: per discovery topic at most one message is ever enqueued in a
process lifetime. The first `_publish_device_discovery` call whose built
messages carry an unseen topic records it in
`_published_discovery_topics` and enqueues exactly one message with it;
a call seeing an already-recorded topic enqueues nothing for it; and over
any trace of calls from the initial empty set the queue never holds more
than one message per topic. -/
theorem spec_C1 :
    (∀ (pub : List String) (q msgs : List PublishMessage) (t : String),
      memStr pub t = false → (∃ m ∈ msgs, m.topic = t) →
      memStr (discovery_enqueue_loop pub q msgs).1 t = true ∧
      countTopic (discovery_enqueue_loop pub q msgs).2 t
        = countTopic q t + 1) ∧
    (∀ (pub : List String) (q msgs : List PublishMessage) (t : String),
      memStr pub t = true →
      countTopic (discovery_enqueue_loop pub q msgs).2 t = countTopic q t) ∧
    (∀ (calls : List (List PublishMessage)) (t : String),
      countTopic (discovery_calls ([], []) calls).2 t ≤ 1) := by
  refine ⟨?_, ?_, ?_⟩
  · intro pub q msgs t hp hex
    refine discovery_loop_first msgs pub q t hp ?_
    rcases hex with ⟨m, hm, he⟩
    exact ⟨m, hm, beq_iff_eq.mpr he⟩
  · intro pub q msgs t hp
    exact (discovery_loop_mem msgs pub q t hp).2
  · intro calls t
    exact discovery_calls_inv calls [] [] t (Nat.zero_le 1) (fun _ => rfl)

/-- C1 witness: an unseen topic is enqueued once by its first call. -/
theorem spec_C1_witness :
    memStr [] "homeassistant/sensor/nina_server_camera/temperature/config"
        = false ∧
    (memStr (discovery_enqueue_loop [] []
        [{ topic := "homeassistant/sensor/nina_server_camera/temperature/config",
           payload := Payload.str "d" }]).1
        "homeassistant/sensor/nina_server_camera/temperature/config" = true ∧
     countTopic (discovery_enqueue_loop [] []
        [{ topic := "homeassistant/sensor/nina_server_camera/temperature/config",
           payload := Payload.str "d" }]).2
        "homeassistant/sensor/nina_server_camera/temperature/config"
       = countTopic []
           "homeassistant/sensor/nina_server_camera/temperature/config" + 1) :=
  ⟨rfl, spec_C1.1 [] []
    [{ topic := "homeassistant/sensor/nina_server_camera/temperature/config",
       payload := Payload.str "d" }]
    "homeassistant/sensor/nina_server_camera/temperature/config" rfl
    ⟨_, List.Mem.head _, rfl⟩⟩

/-! ## C7 -/

/-- C7: a well-formed inbound command produces at most one outbound
message, and exactly one of: nothing (API success with a falsy/empty
result), one success message on the per-device `command_response` state
topic with retain=false and qos=0 (API success with a truthy result), or
one error message on the per-device command error topic with retain=false
and qos=0 (dispatch failure). -/
theorem spec_C7 (config : BridgeConfig) (topic : String) (payload : JValue)
    (dispatch : Except PyErr JValue) :
    (_handle_command config topic (some payload) dispatch).length ≤ 1 ∧
    (∀ r, dispatch = .ok r → truthy r = false →
      _handle_command config topic (some payload) dispatch = []) ∧
    (∀ r, dispatch = .ok r → truthy r = true →
      _handle_command config topic (some payload) dispatch
        = [{ topic := renderStateTopic config.mqtt.topics.base_topic
               (command_device topic) "command_response",
             payload := .json r, retain := false, qos := 0 }]) ∧
    (∀ e, dispatch = .error e →
      _handle_command config topic (some payload) dispatch
        = [{ topic := render_command_error_topic config.mqtt.topics
               (command_device topic),
             payload := .str (pyErrStr e), retain := false, qos := 0 }]) := by
  refine ⟨?_, ?_, ?_, ?_⟩
  · cases dispatch with
    | ok r => cases htr : truthy r <;> simp [_handle_command, htr]
    | error e => simp [_handle_command]
  · intro r h htr; subst h; simp [_handle_command, htr]
  · intro r h htr; subst h; simp [_handle_command, htr]
  · intro e h; subst h; simp [_handle_command]

/-- C7 witness: a successful `park` command on the mount with a truthy
API result enqueues exactly the one success message. -/
theorem spec_C7_witness :
    truthy (JValue.obj [("Success", JValue.bool true)]) = true ∧
    _handle_command default_config "nina/mount/command"
        (some (JValue.obj [("action", JValue.str "park")]))
        (Except.ok (JValue.obj [("Success", JValue.bool true)]))
      = [{ topic := renderStateTopic default_config.mqtt.topics.base_topic
             (command_device "nina/mount/command") "command_response",
           payload := .json (JValue.obj [("Success", JValue.bool true)]),
           retain := false, qos := 0 }] :=
  ⟨rfl, (spec_C7 default_config "nina/mount/command"
      (JValue.obj [("action", JValue.str "park")])
      (Except.ok (JValue.obj [("Success", JValue.bool true)]))).2.2.1
    (JValue.obj [("Success", JValue.bool true)]) rfl rfl⟩

/-! ## C8 -/

/-- C8: every availability message the bridge enqueues — the whole-bridge
availability message, each message of the shutdown sweep over enabled
devices, and the per-device availability message ending a successful or
failed poll — carries exactly the literal `"ON"` or `"OFF"`, is retained,
and has qos 1. -/
theorem spec_C8 (config : BridgeConfig) (p : String)
    (hp : p = "ON" ∨ p = "OFF") :
    ((_publish_availability config.mqtt.topics p).retain = true ∧
     (_publish_availability config.mqtt.topics p).qos = 1 ∧
     ((_publish_availability config.mqtt.topics p).payload = .str "ON" ∨
      (_publish_availability config.mqtt.topics p).payload = .str "OFF")) ∧
    (∀ m ∈ _publish_all_device_availability config p,
      m.retain = true ∧ m.qos = 1 ∧
      (m.payload = .str "ON" ∨ m.payload = .str "OFF")) ∧
    (∀ (device : String) (published : List String)
      (fetch : Except PyErr JValue) (e : PyErr),
      DEVICE_ENDPOINTS.any (fun pr => pr.1 == device) = true →
      poll_result device fetch = .error e →
      (_poll_device config published device fetch).1
        = [{ topic := render_device_availability_topic config.mqtt.topics
               device,
             payload := .str "OFF", retain := true, qos := 1 }]) ∧
    (∀ (device : String) (published : List String)
      (fetch : Except PyErr JValue) (values : List (String × JValue)),
      DEVICE_ENDPOINTS.any (fun pr => pr.1 == device) = true →
      poll_result device fetch = .ok values →
      ∃ pre, (_poll_device config published device fetch).1
        = pre ++ [{ topic := render_device_availability_topic
                      config.mqtt.topics device,
                    payload := .str "ON", retain := true, qos := 1 }]) := by
  refine ⟨⟨rfl, rfl, ?_⟩, ?_, ?_, ?_⟩
  · rcases hp with h | h <;> rw [h]
    · exact Or.inl rfl
    · exact Or.inr rfl
  · intro m hm
    simp only [_publish_all_device_availability] at hm
    rcases List.mem_filterMap.mp hm with ⟨dc, _, hf⟩
    cases he : dc.2.enabled with
    | false => rw [he] at hf; simp at hf
    | true =>
        rw [he] at hf
        simp only [if_true] at hf
        rcases Option.some.inj hf with rfl
        refine ⟨rfl, rfl, ?_⟩
        rcases hp with h | h <;> rw [h]
        · exact Or.inl rfl
        · exact Or.inr rfl
  · intro device published fetch e hany herr
    unfold _poll_device
    rw [hany, herr]
    rfl
  · intro device published fetch values hany hok
    unfold _poll_device
    rw [hany, hok]
    exact ⟨_, rfl⟩

/-- C8 witness: the bridge-ON message and a failed camera poll's OFF
message, under the default configuration. -/
theorem spec_C8_witness :
    ("ON" = "ON" ∨ "ON" = "OFF") ∧
    ((_publish_availability default_config.mqtt.topics "ON").retain = true ∧
     (_publish_availability default_config.mqtt.topics "ON").qos = 1 ∧
     ((_publish_availability default_config.mqtt.topics "ON").payload
        = .str "ON" ∨
      (_publish_availability default_config.mqtt.topics "ON").payload
        = .str "OFF")) ∧
    (_poll_device default_config [] "camera"
        (Except.error (PyErr.requestError "connection refused"))).1
      = [{ topic := render_device_availability_topic
             default_config.mqtt.topics "camera",
           payload := .str "OFF", retain := true, qos := 1 }] :=
  ⟨Or.inl rfl, (spec_C8 default_config "ON" (Or.inl rfl)).1,
   (spec_C8 default_config "ON" (Or.inl rfl)).2.2.1 "camera" []
     (Except.error (PyErr.requestError "connection refused"))
     (PyErr.requestError "connection refused") rfl rfl⟩

/-! ## C10 -/

/-- Reading back the key just set. -/
theorem dget_dset_same (d : List (String × JValue)) (k : String) (v : JValue) :
    dget (dset d k v) k = some v := by
  induction d with
  | nil => simp [dset, dget]
  | cons hd tl ih =>
      obtain ⟨k0, v0⟩ := hd
      cases h : k0 == k <;> simp [dset, dget, h, ih]

/-- Setting one key leaves other keys' lookups unchanged. -/
theorem dget_dset_other (d : List (String × JValue)) (k : String) (v : JValue)
    (k' : String) (h : k' ≠ k) : dget (dset d k v) k' = dget d k' := by
  have hk : (k == k') = false := beq_eq_false_iff_ne.mpr (Ne.symm h)
  induction d with
  | nil => simp [dset, dget, hk]
  | cons hd tl ih =>
      obtain ⟨k0, v0⟩ := hd
      cases h0 : k0 == k with
      | true =>
          have hk0 : k0 = k := eq_of_beq h0
          subst hk0
          simp [dset, dget, h0, hk, ih]
      | false => simp [dset, dget, h0, hk, ih]

/-- The trailing metadata fields never touch the two payload literals. -/
theorem apply_extras_dget (definition : SensorDef) (refresh : Nat)
    (d : List (String × JValue)) (k : String)
    (h1 : k ≠ "unit_of_measurement") (h2 : k ≠ "device_class")
    (h3 : k ≠ "state_class") (h4 : k ≠ "icon") (h5 : k ≠ "expire_after") :
    dget (apply_extras definition refresh d) k = dget d k := by
  obtain ⟨n, u, ic, dc, sc, src, pf⟩ := definition
  cases u <;> cases dc <;> cases sc <;> cases ic <;>
    by_cases hr : refresh > 0 <;>
    simp [apply_extras, hr, dget_dset_other _ _ _ _ h1,
      dget_dset_other _ _ _ _ h2, dget_dset_other _ _ _ _ h3,
      dget_dset_other _ _ _ _ h4, dget_dset_other _ _ _ _ h5]

/-- C10: a boolean state value is published as exactly `"true"` /
`"false"` by `_format_value`, and every binary-sensor discovery payload
declares exactly those strings as its `payload_on` / `payload_off`
literals, so a binary sensor's state payloads always match its own
discovery configuration. -/
theorem spec_C10 (config : BridgeConfig) (device : String) (refresh : Nat)
    (var : String) (definition : SensorDef)
    (hbin : definition.platform = "binary_sensor") :
    dget (sensor_discovery_payload config device refresh var definition)
        "payload_on" = some (.str "true") ∧
    dget (sensor_discovery_payload config device refresh var definition)
        "payload_off" = some (.str "false") ∧
    _format_value (JValue.bool true) = "true" ∧
    _format_value (JValue.bool false) = "false" ∧
    (∀ (extra_keys : List String) (m : PublishMessage),
      m ∈ build_sensor_discovery_messages config device refresh extra_keys →
      ∃ vd ∈ _iter_sensor_definitions device extra_keys,
        m.payload = .json (.obj (sensor_discovery_payload config device
          refresh vd.1 vd.2))) := by
  have hb : (definition.platform == "binary_sensor") = true :=
    beq_iff_eq.mpr hbin
  refine ⟨?_, ?_, rfl, rfl, ?_⟩
  · unfold sensor_discovery_payload
    simp only [hb, beq_self_eq_true, if_true]
    rw [apply_extras_dget _ _ _ _ (by decide) (by decide) (by decide)
      (by decide) (by decide)]
    rw [dget_dset_other _ _ _ _ (by decide), dget_dset_same]
  · unfold sensor_discovery_payload
    simp only [hb, beq_self_eq_true, if_true]
    rw [apply_extras_dget _ _ _ _ (by decide) (by decide) (by decide)
      (by decide) (by decide)]
    rw [dget_dset_same]
  · intro extra_keys m hm
    simp only [build_sensor_discovery_messages] at hm
    rcases List.mem_map.mp hm with ⟨vd, hvd, hmk⟩
    exact ⟨vd, hvd, by rw [← hmk]⟩

/-- C10 witness: the camera's `cooler_on` binary sensor under the default
configuration. -/
theorem spec_C10_witness :
    ({ name := some "Cooler On", icon := some "mdi:snowflake",
       platform := "binary_sensor" } : SensorDef).platform
      = "binary_sensor" ∧
    dget (sensor_discovery_payload default_config "camera" 60 "cooler_on"
        { name := some "Cooler On", icon := some "mdi:snowflake",
          platform := "binary_sensor" }) "payload_on"
      = some (.str "true") :=
  ⟨rfl, (spec_C10 default_config "camera" 60 "cooler_on"
    { name := some "Cooler On", icon := some "mdi:snowflake",
      platform := "binary_sensor" } rfl).1⟩
